import Mathlib

/-
Verification of the Alexa_Surveillance relay server (src/server.js).

The server keeps a mutable map `connectedPis` from client id to an entry
holding a backend url, a display name and a last-seen timestamp.  Request
bodies and headers are JavaScript strings where both `undefined` and the
empty string are falsy; we model such fields as `String`, with `""`
standing for an absent or empty value, which matches every truthiness
check in the source.  Timestamps are integers (milliseconds).
-/

namespace AlexaSurveillance

/-- One entry of `connectedPis`: the object stored at a client id
(fields `url`, `name`, `lastSeen` of server.js lines 77-81). -/
structure PiEntry where
  url : String
  name : String
  lastSeen : Int
deriving DecidableEq, Repr

/-- The `connectedPis` object, as an association list with (in practice
unique) string keys. -/
abbrev Registry := List (String × PiEntry)

/-- Lookup of `connectedPis[clientId]`: first entry with the given key. -/
def findClient : Registry → String → Option PiEntry
  | [], _ => none
  | (k, e) :: rest, c => if k = c then some e else findClient rest c

/-- Assignment `connectedPis[clientId] = entry`: overwrite in place, or
append when the key is new. -/
def setClient : Registry → String → PiEntry → Registry
  | [], c, e => [(c, e)]
  | (k, e0) :: rest, c, e =>
      if k = c then (c, e) :: rest else (k, e0) :: setClient rest c e

/-- The keys of the registry. -/
def keys (r : Registry) : List String := r.map Prod.fst

/-- getRaspberryPiUrl (server.js lines 40-45): the entry url when the
client id is truthy and registered, otherwise the configured default
(modelled by the `defaultUrl` argument, standing for
DEFAULT_RASPBERRY_PI_URL with its localhost fallback). -/
def getRaspberryPiUrl (r : Registry) (defaultUrl clientId : String) : String :=
  if clientId = "" then defaultUrl
  else
    match findClient r clientId with
    | some e => e.url
    | none => defaultUrl

/-- POST /api/register (server.js lines 69-93).  Returns the new registry
and the HTTP status: 400 when clientId or url is falsy, else overwrite
the whole entry with lastSeen = now and answer 200. -/
def register (r : Registry) (clientId url name : String) (now : Int) :
    Registry × Nat :=
  if clientId = "" ∨ url = "" then (r, 400)
  else
    (setClient r clientId
      { url := url
        name := if name = "" then "Unnamed Pi" else name
        lastSeen := now }, 200)

/-- POST /api/ping (server.js lines 317-347).  400 when clientId is falsy.
Unknown id with a truthy url: create the entry like register.  Known id:
set lastSeen = now and overwrite url and name only when truthy.  Unknown
id without url: registry untouched, still 200. -/
def ping (r : Registry) (clientId url name : String) (now : Int) :
    Registry × Nat :=
  if clientId = "" then (r, 400)
  else
    match findClient r clientId with
    | none =>
        if url = "" then (r, 200)
        else
          (setClient r clientId
            { url := url
              name := if name = "" then "Unnamed Pi" else name
              lastSeen := now }, 200)
    | some e =>
        (setClient r clientId
          { url := if url = "" then e.url else url
            name := if name = "" then e.name else name
            lastSeen := now }, 200)

/-- Lookup after overwrite at the same key yields the new entry. -/
theorem findClient_setClient_self (r : Registry) (c : String) (e : PiEntry) :
    findClient (setClient r c e) c = some e := by
  induction r with
  | nil => simp [setClient, findClient]
  | cons p rest ih =>
      obtain ⟨k, e0⟩ := p
      by_cases h : k = c
      · simp [setClient, findClient, h]
      · simp [setClient, findClient, h, ih]

/-- Overwriting one key leaves lookups of other keys unchanged. -/
theorem findClient_setClient_ne (r : Registry) (c c' : String) (e : PiEntry)
    (h : c' ≠ c) : findClient (setClient r c e) c' = findClient r c' := by
  induction r with
  | nil => simp [setClient, findClient, Ne.symm h]
  | cons p rest ih =>
      obtain ⟨k, e0⟩ := p
      by_cases hk : k = c
      · subst hk
        simp [setClient, findClient, Ne.symm h]
      · simp [setClient, findClient, hk, ih]

/-- A successful lookup comes from a member of the list. -/
theorem findClient_mem {r : Registry} {c : String} {e : PiEntry}
    (h : findClient r c = some e) : (c, e) ∈ r := by
  induction r with
  | nil => simp [findClient] at h
  | cons p rest ih =>
      obtain ⟨k, e0⟩ := p
      by_cases hk : k = c
      · subst hk
        simp [findClient] at h
        simp [h]
      · simp [findClient, hk] at h
        exact List.mem_cons_of_mem _ (ih h)

/-- C1: a register call with non-empty clientId and address succeeds with
status 200, stores the full entry with lastSeen = now (name defaulted when
absent), and a subsequent resolve of that clientId returns exactly that
address whatever the configured default is. -/
theorem register_then_resolve (r : Registry) (c u n d : String) (now : Int)
    (hc : c ≠ "") (hu : u ≠ "") :
    (register r c u n now).2 = 200 ∧
    findClient (register r c u n now).1 c =
      some { url := u, name := if n = "" then "Unnamed Pi" else n
             lastSeen := now } ∧
    getRaspberryPiUrl (register r c u n now).1 d c = u := by
  have hreg : register r c u n now =
      (setClient r c { url := u, name := if n = "" then "Unnamed Pi" else n
                       lastSeen := now }, 200) := by
    simp [register, hc, hu]
  refine ⟨by simp [hreg], ?_, ?_⟩
  · simp [hreg, findClient_setClient_self]
  · simp [getRaspberryPiUrl, hc, hreg, findClient_setClient_self]

/-- Witness for C1 at a concrete input. -/
theorem register_then_resolve_witness :
    (register [] "pi1" "http://a" "" 5).2 = 200 ∧
    findClient (register [] "pi1" "http://a" "" 5).1 "pi1" =
      some { url := "http://a", name := "Unnamed Pi", lastSeen := 5 } ∧
    getRaspberryPiUrl (register [] "pi1" "http://a" "" 5).1 "http://d" "pi1" =
      "http://a" := by
  have h := register_then_resolve [] "pi1" "http://a" "" "http://d" 5
    (by decide) (by decide)
  simpa using h

/-- C7: a heartbeat on a known clientId answers 200, sets lastSeen to now,
and overwrites url and name only when supplied, keeping the stored values
otherwise. -/
theorem heartbeat_known_partial_update (r : Registry) (c u n : String)
    (now : Int) (e : PiEntry) (hc : c ≠ "") (he : findClient r c = some e) :
    (ping r c u n now).2 = 200 ∧
    findClient (ping r c u n now).1 c =
      some { url := if u = "" then e.url else u
             name := if n = "" then e.name else n
             lastSeen := now } := by
  have hp : ping r c u n now =
      (setClient r c { url := if u = "" then e.url else u
                       name := if n = "" then e.name else n
                       lastSeen := now }, 200) := by
    simp [ping, hc, he]
  exact ⟨by simp [hp], by simp [hp, findClient_setClient_self]⟩

/-- Witness for C7: heartbeat with a new url and no name keeps the name. -/
theorem heartbeat_known_partial_update_witness :
    (ping [("pi1", { url := "http://a", name := "Cam", lastSeen := 1 })]
        "pi1" "http://b" "" 9).2 = 200 ∧
    findClient (ping [("pi1", { url := "http://a", name := "Cam", lastSeen := 1 })]
        "pi1" "http://b" "" 9).1 "pi1" =
      some { url := "http://b", name := "Cam", lastSeen := 9 } := by
  have h := heartbeat_known_partial_update
    [("pi1", { url := "http://a", name := "Cam", lastSeen := 1 })]
    "pi1" "http://b" "" 9 { url := "http://a", name := "Cam", lastSeen := 1 }
    (by decide) (by decide)
  simpa using h

/-- C8: a heartbeat for an unknown clientId that supplies no address leaves
the registry exactly as it was and still answers 200. -/
theorem heartbeat_unknown_without_url_noop (r : Registry) (c n : String)
    (now : Int) (hc : c ≠ "") (hunk : findClient r c = none) :
    ping r c "" n now = (r, 200) := by
  simp [ping, hc, hunk]

/-- Witness for C8 at a concrete input. -/
theorem heartbeat_unknown_without_url_noop_witness :
    ping [("pi1", { url := "http://a", name := "Cam", lastSeen := 1 })]
      "ghost" "" "Name" 9 =
    ([("pi1", { url := "http://a", name := "Cam", lastSeen := 1 })], 200) :=
  heartbeat_unknown_without_url_noop
    [("pi1", { url := "http://a", name := "Cam", lastSeen := 1 })]
    "ghost" "Name" 9 (by decide) (by decide)

/-- The stale threshold of the sweeper (server.js line 353): 5 minutes in
milliseconds. -/
def staleThreshold : Int := 5 * 60 * 1000

/-- evictStaleEntries: one pass over the registry deleting every entry
whose now - lastSeen exceeds the threshold (server.js lines 355-361). -/
def evictStale (r : Registry) (now threshold : Int) : Registry :=
  r.filter (fun p => !(decide (now - p.2.lastSeen > threshold)))

/-- One tick of the stale-client sweeper (server.js lines 350-365):
snapshot time `now`, evict with the 5-minute threshold. -/
def sweepTick (r : Registry) (now : Int) : Registry :=
  evictStale r now staleThreshold

/-- A key absent from the registry stays absent after filtering. -/
theorem findClient_filter_none (r : Registry) (c : String)
    (p : String × PiEntry → Bool) (h : findClient r c = none) :
    findClient (r.filter p) c = none := by
  induction r with
  | nil => simp [findClient]
  | cons q rest ih =>
      obtain ⟨k, e0⟩ := q
      by_cases hk : k = c
      · simp [findClient, hk] at h
      · simp [findClient, hk] at h
        by_cases hp : p (k, e0) <;>
          simp [List.filter, hp, findClient, hk, ih h]

/-- A key outside the key list is not found. -/
theorem findClient_eq_none_of_not_mem (r : Registry) (c : String)
    (hout : c ∉ keys r) : findClient r c = none := by
  induction r with
  | nil => simp [findClient]
  | cons q rest ih =>
      obtain ⟨k, e0⟩ := q
      have h1 : ¬ k = c := by
        intro hkc
        exact hout (by simp [keys, hkc])
      have h2 : c ∉ keys rest := by
        intro hm
        exact hout (by simp [keys] at hm ⊢; exact Or.inr hm)
      simp [findClient, h1, ih h2]

/-- With duplicate-free keys, lookup in a filtered registry keeps the entry
exactly when the predicate holds of it. -/
theorem findClient_filter (r : Registry) (c : String) (e : PiEntry)
    (p : String × PiEntry → Bool) (hnd : (keys r).Nodup)
    (h : findClient r c = some e) :
    findClient (r.filter p) c = if p (c, e) then some e else none := by
  induction r with
  | nil => simp [findClient] at h
  | cons q rest ih =>
      obtain ⟨k, e0⟩ := q
      have hnd' : (keys rest).Nodup := (List.nodup_cons.mp hnd).2
      by_cases hk : k = c
      · subst hk
        simp [findClient] at h
        subst h
        have hout : k ∉ keys rest := (List.nodup_cons.mp hnd).1
        have hrest : findClient rest k = none :=
          findClient_eq_none_of_not_mem rest k hout
        by_cases hp : p (k, e0)
        · simp [List.filter, hp, findClient]
        · simp [List.filter, hp, findClient_filter_none _ _ _ hrest]
      · simp [findClient, hk] at h
        by_cases hp : p (k, e0) <;>
          simp [List.filter, hp, findClient, hk, ih hnd' h]

/-- C2: after one sweep tick at time now, an entry strictly older than the
5-minute threshold is gone from the registry, and an entry within the
threshold is still there, unchanged. -/
theorem sweep_evicts_exactly_stale (r : Registry) (now : Int) (c : String)
    (e : PiEntry) (hnd : (keys r).Nodup) (hf : findClient r c = some e) :
    (now - e.lastSeen > staleThreshold → findClient (sweepTick r now) c = none) ∧
    (now - e.lastSeen ≤ staleThreshold →
      findClient (sweepTick r now) c = some e) := by
  have h := findClient_filter r c e
    (fun p => !(decide (now - p.2.lastSeen > staleThreshold))) hnd hf
  constructor
  · intro hstale
    rw [sweepTick, evictStale, h]
    simp [hstale]
  · intro hfresh
    rw [sweepTick, evictStale, h]
    simp [not_lt.mpr hfresh]

/-- Witness for C2: with entries aged 1 000 000 ms and 0 ms at
now = 1 000 000, the first is evicted and the second survives intact. -/
theorem sweep_evicts_exactly_stale_witness :
    findClient (sweepTick
      [("old", { url := "http://a", name := "A", lastSeen := 0 }),
       ("new", { url := "http://b", name := "B", lastSeen := 1000000 })]
      1000000) "old" = none ∧
    findClient (sweepTick
      [("old", { url := "http://a", name := "A", lastSeen := 0 }),
       ("new", { url := "http://b", name := "B", lastSeen := 1000000 })]
      1000000) "new" =
      some { url := "http://b", name := "B", lastSeen := 1000000 } := by
  constructor
  · exact (sweep_evicts_exactly_stale
      [("old", { url := "http://a", name := "A", lastSeen := 0 }),
       ("new", { url := "http://b", name := "B", lastSeen := 1000000 })]
      1000000 "old" { url := "http://a", name := "A", lastSeen := 0 }
      (by decide) (by decide)).1 (by decide)
  · exact (sweep_evicts_exactly_stale
      [("old", { url := "http://a", name := "A", lastSeen := 0 }),
       ("new", { url := "http://b", name := "B", lastSeen := 1000000 })]
      1000000 "new" { url := "http://b", name := "B", lastSeen := 1000000 }
      (by decide) (by decide)).2 (by decide)

/-- The slot objects of an Alexa IntentRequest (request.intent.slots):
each recognized slot is either absent or carries a string value; a slot
present with an empty value behaves like an absent one in every
truthiness check of the source, so `some ""` and `none` both model it. -/
structure Slots where
  cameraNumber : Option String
  firstCamera : Option String
  secondCamera : Option String
  allCameras : Option String
deriving DecidableEq, Repr

/-- JavaScript truthiness of `slots.X && slots.X.value`. -/
def hasVal : Option String → Bool
  | none => false
  | some v => !(v == "")

/-- The slot value kept by the extraction code: present only when the
truthiness guard passes. -/
def slotVal (o : Option String) : Option String :=
  match o with
  | none => none
  | some v => if v = "" then none else some v

/-- The `intentData` payload built by the /alexa handler (server.js lines
193-212): the intent name plus the populated known slots. -/
structure IntentData where
  intent : String
  cameraNumber : Option String
  firstCamera : Option String
  secondCamera : Option String
  allCameras : Option String
deriving DecidableEq, Repr

/-- Slot extraction (server.js lines 198-212): only OpenCameraIntent and
CloseCameraIntent copy the four known slots, and only those with truthy
values. -/
def extractIntentData (intentName : String) (slots : Slots) : IntentData :=
  if intentName = "OpenCameraIntent" ∨ intentName = "CloseCameraIntent" then
    { intent := intentName
      cameraNumber := slotVal slots.cameraNumber
      firstCamera := slotVal slots.firstCamera
      secondCamera := slotVal slots.secondCamera
      allCameras := slotVal slots.allCameras }
  else
    { intent := intentName, cameraNumber := none, firstCamera := none
      secondCamera := none, allCameras := none }

/-- The camera-control intents forwarded to the Raspberry Pi
(server.js line 215). -/
def isForwardableIntent (intentName : String) : Bool :=
  intentName == "OpenCameraIntent" || intentName == "CloseCameraIntent" ||
    intentName == "ShowAllCamerasIntent"

/-- Speech generated after a successful forward (server.js lines 231-249),
following the truthiness checks on the extracted intentData slots. -/
def successSpeech (intentName : String) (d : IntentData) : String :=
  if intentName = "OpenCameraIntent" then
    if hasVal d.cameraNumber then
      "Displaying camera " ++ d.cameraNumber.getD "" ++ "."
    else if hasVal d.firstCamera && hasVal d.secondCamera then
      "Displaying cameras " ++ d.firstCamera.getD "" ++ " and " ++
        d.secondCamera.getD "" ++ "."
    else "Displaying all cameras."
  else if intentName = "CloseCameraIntent" then
    if hasVal d.cameraNumber then
      "Hiding camera " ++ d.cameraNumber.getD "" ++ "."
    else if hasVal d.firstCamera && hasVal d.secondCamera then
      "Hiding cameras " ++ d.firstCamera.getD "" ++ " and " ++
        d.secondCamera.getD "" ++ "."
    else "Hiding all cameras."
  else if intentName = "ShowAllCamerasIntent" then
    "Displaying all cameras."
  else ""

/-- The apology substituted when the forward from /alexa fails
(server.js line 252). -/
def apologySpeech : String :=
  "Sorry, there was a problem connecting to the surveillance system."

/-- The observable outcome of one POST /alexa request: HTTP status,
protocol envelope version, spoken text, the session flag, the forward
attempts made (target url and payload), and the registry afterwards.
The SessionEndedRequest reply has an empty response object; it is
modelled with empty speech and an open session. -/
structure AlexaOutcome where
  status : Nat
  version : String
  speech : String
  shouldEndSession : Bool
  forwarded : List (String × IntentData)
  registry : Registry
deriving DecidableEq, Repr

/-- POST /alexa (server.js lines 132-314).  `requestType` is the request
type with "" for a missing one, `intentName` likewise.  The outcome of
the single outbound axios call is abstracted by `fwdOk`: `true` when the
backend answered inside the 5-second timeout, `false` on timeout or
connection failure; it is consulted only when a camera intent is
forwarded.  The handler never writes `connectedPis`, so the registry
comes back unchanged in every branch. -/
def alexaHandler (requestType intentName : String) (slots : Slots)
    (r : Registry) (defaultUrl : String) (now : Int) (fwdOk : Bool) :
    AlexaOutcome :=
  if requestType = "" then
    { status := 400, version := "1.0", speech := "Invalid request format."
      shouldEndSession := true, forwarded := [], registry := r }
  else if requestType = "LaunchRequest" then
    { status := 200, version := "1.0"
      speech := "Welcome to Surveillance Camera. You can say things like, display camera 1, or hide all cameras."
      shouldEndSession := false, forwarded := [], registry := r }
  else if requestType = "IntentRequest" then
    if intentName = "" then
      { status := 400, version := "1.0"
        speech := "I couldn\x27t understand your request."
        shouldEndSession := false, forwarded := [], registry := r }
    else
      let d := extractIntentData intentName slots
      if isForwardableIntent intentName then
        let url := getRaspberryPiUrl r defaultUrl "default"
        { status := 200, version := "1.0"
          speech := if fwdOk then successSpeech intentName d
                    else apologySpeech
          shouldEndSession := false, forwarded := [(url, d)], registry := r }
      else if intentName = "AMAZON.HelpIntent" then
        { status := 200, version := "1.0"
          speech := "You can say things like, display camera 1, display cameras 1 and 2, or hide all cameras. How can I help?"
          shouldEndSession := false, forwarded := [], registry := r }
      else if intentName = "AMAZON.CancelIntent" ∨
          intentName = "AMAZON.StopIntent" then
        { status := 200, version := "1.0", speech := "Goodbye!"
          shouldEndSession := true, forwarded := [], registry := r }
      else
        { status := 200, version := "1.0", speech := ""
          shouldEndSession := false, forwarded := [], registry := r }
  else if requestType = "SessionEndedRequest" then
    { status := 200, version := "1.0", speech := ""
      shouldEndSession := false, forwarded := [], registry := r }
  else
    { status := 200, version := "1.0"
      speech := "I\x27m not sure how to help with that."
      shouldEndSession := false, forwarded := [], registry := r }

/-- The result of the single outbound axios call made by /api/alexa:
either the backend answered with some status, or the call timed out or
failed to connect with an error message. -/
inductive ForwardOutcome where
  | success (status : Nat)
  | failure (message : String)
deriving DecidableEq, Repr

/-- The observable outcome of one POST /api/alexa request: the relayed or
error status, the error detail carried on failure, the registry
afterwards, and the forward attempts made. -/
structure ApiAlexaOutcome where
  status : Nat
  errorDetails : Option String
  registry : Registry
  forwarded : List String
deriving DecidableEq, Repr

/-- POST /api/alexa (server.js lines 96-129).  The client id comes from
the x-client-id header, defaulting to "default" when falsy; the body is
forwarded once to the resolved url.  On success the backend status is
relayed and, when the resolved client is registered, its lastSeen is set
to now; on failure the reply is 500 carrying the error message and the
registry is untouched. -/
def apiAlexaHandler (r : Registry) (headerClientId defaultUrl : String)
    (now : Int) (outcome : ForwardOutcome) : ApiAlexaOutcome :=
  let clientId := if headerClientId = "" then "default" else headerClientId
  let url := getRaspberryPiUrl r defaultUrl clientId
  match outcome with
  | .success st =>
      let r2 := match findClient r clientId with
        | some e => setClient r clientId { e with lastSeen := now }
        | none => r
      { status := st, errorDetails := none, registry := r2
        forwarded := [url] }
  | .failure msg =>
      { status := 500, errorDetails := some msg, registry := r
        forwarded := [url] }

/-- A request with no slots at all. -/
def noSlots : Slots :=
  { cameraNumber := none, firstCamera := none, secondCamera := none
    allCameras := none }

/-- An absent slot is falsy. -/
theorem hasVal_none : hasVal none = false := rfl

/-- Slot extraction keeps truthiness. -/
theorem hasVal_slotVal (o : Option String) : hasVal (slotVal o) = hasVal o := by
  cases o with
  | none => rfl
  | some v =>
      by_cases h : v = "" <;> simp [slotVal, hasVal, h]

/-- A truthy slot value is kept verbatim. -/
theorem slotVal_eq_some {v : String} (h : v ≠ "") :
    slotVal (some v) = some v := by
  simp [slotVal, h]

/-- A falsy slot is dropped. -/
theorem slotVal_eq_none {o : Option String} (h : hasVal o = false) :
    slotVal o = none := by
  cases o with
  | none => rfl
  | some v =>
      simp [hasVal] at h
      simp [slotVal, h]

/-- A forwardable intent name is one of the three camera intents. -/
theorem forwardable_cases {intentName : String}
    (h : isForwardableIntent intentName = true) :
    intentName = "OpenCameraIntent" ∨ intentName = "CloseCameraIntent" ∨
      intentName = "ShowAllCamerasIntent" := by
  simpa [isForwardableIntent, or_assoc] using h

/-- Closed form of the /alexa handler on a forwardable camera intent: it
answers 200, forwards the extracted payload once to the address resolved
for the fixed client id "default", speaks the per-intent text on success
and the apology on failure, keeps the session open and leaves the
registry alone. -/
theorem alexaHandler_forwardable (intentName : String) (slots : Slots)
    (r : Registry) (d : String) (now : Int) (fwd : Bool)
    (hn : isForwardableIntent intentName = true) :
    alexaHandler "IntentRequest" intentName slots r d now fwd =
      { status := 200, version := "1.0"
        speech := if fwd then
            successSpeech intentName (extractIntentData intentName slots)
          else apologySpeech
        shouldEndSession := false
        forwarded := [(getRaspberryPiUrl r d "default",
          extractIntentData intentName slots)]
        registry := r } := by
  rcases forwardable_cases hn with h | h | h <;> subst h <;>
    simp [alexaHandler, isForwardableIntent]

/-- The /alexa handler never mutates the registry. -/
theorem alexaHandler_registry (rt nm : String) (sl : Slots) (r : Registry)
    (d : String) (now : Int) (fwd : Bool) :
    (alexaHandler rt nm sl r d now fwd).registry = r := by
  simp only [alexaHandler]
  split_ifs <;> rfl

/-- The /alexa handler makes at most one forward attempt. -/
theorem alexaHandler_forward_once (rt nm : String) (sl : Slots)
    (r : Registry) (d : String) (now : Int) (fwd : Bool) :
    (alexaHandler rt nm sl r d now fwd).forwarded.length ≤ 1 := by
  simp only [alexaHandler]
  split_ifs <;> simp

/-- C3 counterexample: one OpenCameraIntent request whose forward succeeds
and an identical one whose forward fails produce different speech, so the
produced speech is not independent of transport. -/
theorem speech_depends_on_transport :
    (alexaHandler "IntentRequest" "OpenCameraIntent" noSlots []
      "http://d" 0 true).speech ≠
    (alexaHandler "IntentRequest" "OpenCameraIntent" noSlots []
      "http://d" 0 false).speech := by
  decide

/-- C3 as amended: for IntentRequests with identical intent name and
slots, the forwarded command payload and the decision whether to forward
are identical whatever the registry, default url, clock and transport
outcome are; the speech, status and session flag agree as soon as the
transport outcome also agrees. -/
theorem translation_components_pure (intentName : String) (slots : Slots)
    (r r2 : Registry) (d d2 : String) (now now2 : Int) (fwd fwd2 : Bool) :
    ((alexaHandler "IntentRequest" intentName slots r d now fwd).forwarded.map
        Prod.snd =
      (alexaHandler "IntentRequest" intentName slots r2 d2 now2 fwd2).forwarded.map
        Prod.snd) ∧
    ((alexaHandler "IntentRequest" intentName slots r d now fwd).forwarded = [] ↔
      (alexaHandler "IntentRequest" intentName slots r2 d2 now2 fwd2).forwarded = []) ∧
    (fwd = fwd2 →
      (alexaHandler "IntentRequest" intentName slots r d now fwd).speech =
        (alexaHandler "IntentRequest" intentName slots r2 d2 now2 fwd2).speech ∧
      (alexaHandler "IntentRequest" intentName slots r d now fwd).status =
        (alexaHandler "IntentRequest" intentName slots r2 d2 now2 fwd2).status ∧
      (alexaHandler "IntentRequest" intentName slots r d now fwd).shouldEndSession =
        (alexaHandler "IntentRequest" intentName slots r2 d2 now2 fwd2).shouldEndSession) := by
  by_cases h0 : intentName = ""
  · subst h0
    refine ⟨by simp [alexaHandler], by simp [alexaHandler], ?_⟩
    intro _
    simp [alexaHandler]
  · by_cases h1 : isForwardableIntent intentName
    · rw [alexaHandler_forwardable intentName slots r d now fwd h1,
        alexaHandler_forwardable intentName slots r2 d2 now2 fwd2 h1]
      refine ⟨by simp, by simp, ?_⟩
      intro heq
      subst heq
      simp
    · simp only [alexaHandler, if_neg h0, eq_self_iff_true, if_pos,
        Bool.not_eq_true] at *
      refine ⟨?_, ?_, ?_⟩ <;>
        · simp [alexaHandler, h0, h1]
          split_ifs <;> simp

/-- Witness for C3 as amended, at a concrete input with matching
transport outcomes. -/
theorem translation_components_pure_witness :
    (alexaHandler "IntentRequest" "OpenCameraIntent" noSlots []
        "http://d" 0 true).speech =
      (alexaHandler "IntentRequest" "OpenCameraIntent" noSlots
        [("default", { url := "http://pi", name := "P", lastSeen := 3 })]
        "http://e" 7 true).speech :=
  ((translation_components_pure "OpenCameraIntent" noSlots []
    [("default", { url := "http://pi", name := "P", lastSeen := 3 })]
    "http://d" "http://e" 0 7 true true).2.2 rfl).1

/-- C4 counterexample: a ShowAllCamerasIntent request whose forward fails
speaks the apology, not the claimed unconditional "Displaying all
cameras." text. -/
theorem show_all_apology_on_failure :
    (alexaHandler "IntentRequest" "ShowAllCamerasIntent" noSlots []
        "http://d" 0 false).speech = apologySpeech ∧
    (alexaHandler "IntentRequest" "ShowAllCamerasIntent" noSlots []
        "http://d" 0 false).speech ≠ "Displaying all cameras." := by
  decide

/-- C4 as amended: when the forward succeeds, camera-intent speech follows
the per-intent rules (camera number first, then the first/second pair,
else the all-cameras text, with Displaying for open and Hiding for
close); when the forward of a camera intent fails the apology replaces
that speech; cancel and stop always speak "Goodbye!" and end the
session; every other intent response keeps the session open. -/
theorem intent_speech_rules (slots : Slots) (r : Registry) (d : String)
    (now : Int) :
    (∀ v, slots.cameraNumber = some v → v ≠ "" →
      (alexaHandler "IntentRequest" "OpenCameraIntent" slots r d now
        true).speech = "Displaying camera " ++ v ++ ".") ∧
    (∀ a b, hasVal slots.cameraNumber = false →
      slots.firstCamera = some a → a ≠ "" →
      slots.secondCamera = some b → b ≠ "" →
      (alexaHandler "IntentRequest" "OpenCameraIntent" slots r d now
        true).speech = "Displaying cameras " ++ a ++ " and " ++ b ++ ".") ∧
    (hasVal slots.cameraNumber = false →
      (hasVal slots.firstCamera = false ∨ hasVal slots.secondCamera = false) →
      (alexaHandler "IntentRequest" "OpenCameraIntent" slots r d now
        true).speech = "Displaying all cameras.") ∧
    (∀ v, slots.cameraNumber = some v → v ≠ "" →
      (alexaHandler "IntentRequest" "CloseCameraIntent" slots r d now
        true).speech = "Hiding camera " ++ v ++ ".") ∧
    (∀ a b, hasVal slots.cameraNumber = false →
      slots.firstCamera = some a → a ≠ "" →
      slots.secondCamera = some b → b ≠ "" →
      (alexaHandler "IntentRequest" "CloseCameraIntent" slots r d now
        true).speech = "Hiding cameras " ++ a ++ " and " ++ b ++ ".") ∧
    (hasVal slots.cameraNumber = false →
      (hasVal slots.firstCamera = false ∨ hasVal slots.secondCamera = false) →
      (alexaHandler "IntentRequest" "CloseCameraIntent" slots r d now
        true).speech = "Hiding all cameras.") ∧
    ((alexaHandler "IntentRequest" "ShowAllCamerasIntent" slots r d now
        true).speech = "Displaying all cameras.") ∧
    (∀ intentName, isForwardableIntent intentName = true →
      (alexaHandler "IntentRequest" intentName slots r d now false).speech =
        apologySpeech) ∧
    (∀ fwd,
      (alexaHandler "IntentRequest" "AMAZON.CancelIntent" slots r d now
        fwd).speech = "Goodbye!" ∧
      (alexaHandler "IntentRequest" "AMAZON.CancelIntent" slots r d now
        fwd).shouldEndSession = true) ∧
    (∀ fwd,
      (alexaHandler "IntentRequest" "AMAZON.StopIntent" slots r d now
        fwd).speech = "Goodbye!" ∧
      (alexaHandler "IntentRequest" "AMAZON.StopIntent" slots r d now
        fwd).shouldEndSession = true) ∧
    (∀ intentName fwd, intentName ≠ "AMAZON.CancelIntent" →
      intentName ≠ "AMAZON.StopIntent" →
      (alexaHandler "IntentRequest" intentName slots r d now
        fwd).shouldEndSession = false) := by
  refine ⟨?_, ?_, ?_, ?_, ?_, ?_, ?_, ?_, ?_, ?_, ?_⟩
  · intro v hv hvne
    rw [alexaHandler_forwardable _ _ _ _ _ _ (by decide)]
    simp [successSpeech, extractIntentData, hv, slotVal_eq_some hvne,
      hasVal, hvne]
  · intro a b hcam hfst hfa hsnd hfb
    rw [alexaHandler_forwardable _ _ _ _ _ _ (by decide)]
    simp [successSpeech, extractIntentData, slotVal_eq_none hcam, hfst,
      hsnd, slotVal_eq_some hfa, slotVal_eq_some hfb, hasVal, hfa, hfb]
  · intro hcam hor
    rw [alexaHandler_forwardable _ _ _ _ _ _ (by decide)]
    have hpair : (hasVal (slotVal slots.firstCamera) &&
        hasVal (slotVal slots.secondCamera)) = false := by
      rcases hor with h | h <;> simp [hasVal_slotVal, h]
    simp [successSpeech, extractIntentData, slotVal_eq_none hcam,
      hasVal_none, hpair]
  · intro v hv hvne
    rw [alexaHandler_forwardable _ _ _ _ _ _ (by decide)]
    simp [successSpeech, extractIntentData, hv, slotVal_eq_some hvne,
      hasVal, hvne]
  · intro a b hcam hfst hfa hsnd hfb
    rw [alexaHandler_forwardable _ _ _ _ _ _ (by decide)]
    simp [successSpeech, extractIntentData, slotVal_eq_none hcam, hfst,
      hsnd, slotVal_eq_some hfa, slotVal_eq_some hfb, hasVal, hfa, hfb]
  · intro hcam hor
    rw [alexaHandler_forwardable _ _ _ _ _ _ (by decide)]
    have hpair : (hasVal (slotVal slots.firstCamera) &&
        hasVal (slotVal slots.secondCamera)) = false := by
      rcases hor with h | h <;> simp [hasVal_slotVal, h]
    simp [successSpeech, extractIntentData, slotVal_eq_none hcam,
      hasVal_none, hpair]
  · rw [alexaHandler_forwardable _ _ _ _ _ _ (by decide)]
    simp [successSpeech, extractIntentData]
  · intro intentName hn
    rw [alexaHandler_forwardable _ _ _ _ _ _ hn]
    simp
  · intro fwd
    constructor <;> simp [alexaHandler, isForwardableIntent]
  · intro fwd
    constructor <;> simp [alexaHandler, isForwardableIntent]
  · intro intentName fwd hnc hns
    by_cases h0 : intentName = ""
    · subst h0
      simp [alexaHandler]
    · by_cases h1 : isForwardableIntent intentName
      · rw [alexaHandler_forwardable _ _ _ _ _ _ h1]
      · by_cases h2 : intentName = "AMAZON.HelpIntent"
        · subst h2
          simp [alexaHandler, isForwardableIntent]
        · simp [alexaHandler, h0, h1, h2, hnc, hns]

/-- Witness for C4 as amended, covering the scenario rows of the spec. -/
theorem intent_speech_rules_witness :
    (alexaHandler "IntentRequest" "OpenCameraIntent"
        { cameraNumber := some "3", firstCamera := none
          secondCamera := none, allCameras := none }
        [] "http://d" 0 true).speech = "Displaying camera 3." ∧
    (alexaHandler "IntentRequest" "OpenCameraIntent"
        { cameraNumber := none, firstCamera := some "1"
          secondCamera := some "2", allCameras := none }
        [] "http://d" 0 true).speech = "Displaying cameras 1 and 2." ∧
    (alexaHandler "IntentRequest" "CloseCameraIntent" noSlots []
        "http://d" 0 true).speech = "Hiding all cameras." ∧
    (alexaHandler "IntentRequest" "AMAZON.CancelIntent" noSlots []
        "http://d" 0 true).speech = "Goodbye!" ∧
    (alexaHandler "IntentRequest" "AMAZON.CancelIntent" noSlots []
        "http://d" 0 true).shouldEndSession = true ∧
    (alexaHandler "IntentRequest" "AMAZON.HelpIntent" noSlots []
        "http://d" 0 true).shouldEndSession = false := by
  refine ⟨?_, ?_, ?_, ?_, ?_, ?_⟩
  · exact (intent_speech_rules
      { cameraNumber := some "3", firstCamera := none
        secondCamera := none, allCameras := none } [] "http://d" 0).1
      "3" rfl (by decide)
  · exact (intent_speech_rules
      { cameraNumber := none, firstCamera := some "1"
        secondCamera := some "2", allCameras := none } [] "http://d" 0).2.1
      "1" "2" (by decide) rfl (by decide) rfl (by decide)
  · exact (intent_speech_rules noSlots [] "http://d" 0).2.2.2.2.2.1
      (by decide) (Or.inl (by decide))
  · exact ((intent_speech_rules noSlots [] "http://d" 0).2.2.2.2.2.2.2.2.1
      true).1
  · exact ((intent_speech_rules noSlots [] "http://d" 0).2.2.2.2.2.2.2.2.1
      true).2
  · exact (intent_speech_rules noSlots [] "http://d" 0).2.2.2.2.2.2.2.2.2.2
      "AMAZON.HelpIntent" true (by decide) (by decide)

/-- C5: a forward that times out or fails to connect makes /api/alexa
answer 500 with the underlying cause and an untouched registry, while
/alexa (on a camera intent) answers 200 with the apology speech inside a
well-formed envelope keeping the session open; neither endpoint ever
makes more than one forward attempt per request. -/
theorem forward_failure_handling (r : Registry)
    (hdr d msg intentName : String) (slots : Slots) (now : Int)
    (hn : isForwardableIntent intentName = true) :
    (apiAlexaHandler r hdr d now (.failure msg)).status = 500 ∧
    (apiAlexaHandler r hdr d now (.failure msg)).errorDetails = some msg ∧
    (apiAlexaHandler r hdr d now (.failure msg)).registry = r ∧
    (alexaHandler "IntentRequest" intentName slots r d now false).status = 200 ∧
    (alexaHandler "IntentRequest" intentName slots r d now false).speech =
      apologySpeech ∧
    (alexaHandler "IntentRequest" intentName slots r d now
      false).shouldEndSession = false ∧
    (alexaHandler "IntentRequest" intentName slots r d now false).version =
      "1.0" ∧
    (∀ rt nm sl fwd,
      (alexaHandler rt nm sl r d now fwd).forwarded.length ≤ 1) ∧
    (∀ oc, (apiAlexaHandler r hdr d now oc).forwarded.length ≤ 1) := by
  rw [alexaHandler_forwardable _ _ _ _ _ _ hn]
  refine ⟨by simp [apiAlexaHandler], by simp [apiAlexaHandler],
    by simp [apiAlexaHandler], by simp, by simp, by simp, by simp,
    fun rt nm sl fwd => alexaHandler_forward_once rt nm sl r d now fwd,
    ?_⟩
  intro oc
  cases oc <;> simp [apiAlexaHandler]

/-- Witness for C5 at a concrete input. -/
theorem forward_failure_handling_witness :
    (apiAlexaHandler [] "" "http://d" 0 (.failure "timeout")).status = 500 ∧
    (apiAlexaHandler [] "" "http://d" 0
      (.failure "timeout")).errorDetails = some "timeout" ∧
    (alexaHandler "IntentRequest" "OpenCameraIntent" noSlots []
      "http://d" 0 false).status = 200 ∧
    (alexaHandler "IntentRequest" "OpenCameraIntent" noSlots []
      "http://d" 0 false).speech = apologySpeech ∧
    (alexaHandler "IntentRequest" "OpenCameraIntent" noSlots []
      "http://d" 0 false).shouldEndSession = false := by
  have h := forward_failure_handling [] "" "http://d" "timeout"
    "OpenCameraIntent" noSlots 0 (by decide)
  exact ⟨h.1, h.2.1, h.2.2.2.1, h.2.2.2.2.1, h.2.2.2.2.2.1⟩

/-- C6 counterexample: with "default" registered at lastSeen 0, a
successful camera-intent forward through the assistant /alexa endpoint
goes to that entry's backend yet leaves its lastSeen at 0, not at the
current time. -/
theorem assistant_forward_keeps_lastSeen :
    ((alexaHandler "IntentRequest" "ShowAllCamerasIntent" noSlots
        [("default", { url := "http://pi", name := "Pi", lastSeen := 0 })]
        "http://d" 999999 true).forwarded.map Prod.fst = ["http://pi"]) ∧
    findClient (alexaHandler "IntentRequest" "ShowAllCamerasIntent" noSlots
        [("default", { url := "http://pi", name := "Pi", lastSeen := 0 })]
        "http://d" 999999 true).registry "default" =
      some { url := "http://pi", name := "Pi", lastSeen := 0 } ∧
    (0 : Int) ≠ 999999 := by
  refine ⟨?_, ?_, by decide⟩ <;> decide

/-- C6 as amended: lastSeen is set to the current time by register, by
heartbeat on a known id, by heartbeat that creates an entry, and by a
successful forward on the generic /api/alexa path when the resolved
client id is registered; the assistant /alexa path never touches the
registry at all. -/
theorem lastSeen_update_rules (r : Registry) (c u n hdr d : String)
    (now : Int) (e : PiEntry) :
    (c ≠ "" → u ≠ "" →
      (findClient (register r c u n now).1 c).map PiEntry.lastSeen =
        some now) ∧
    (c ≠ "" → findClient r c = some e →
      (findClient (ping r c u n now).1 c).map PiEntry.lastSeen =
        some now) ∧
    (c ≠ "" → findClient r c = none → u ≠ "" →
      (findClient (ping r c u n now).1 c).map PiEntry.lastSeen =
        some now) ∧
    (∀ st, findClient r (if hdr = "" then "default" else hdr) = some e →
      (findClient (apiAlexaHandler r hdr d now (.success st)).registry
        (if hdr = "" then "default" else hdr)).map PiEntry.lastSeen =
        some now) ∧
    (∀ rt nm sl fwd, (alexaHandler rt nm sl r d now fwd).registry = r) := by
  refine ⟨?_, ?_, ?_, ?_, ?_⟩
  · intro hc hu
    simp [register, hc, hu, findClient_setClient_self]
  · intro hc he
    simp [ping, hc, he, findClient_setClient_self]
  · intro hc he hu
    simp [ping, hc, he, hu, findClient_setClient_self]
  · intro st he
    simp [apiAlexaHandler, he, findClient_setClient_self]
  · intro rt nm sl fwd
    exact alexaHandler_registry rt nm sl r d now fwd

/-- Witness for C6 as amended at concrete inputs. -/
theorem lastSeen_update_rules_witness :
    (findClient (register [] "pi1" "http://a" "" 7).1 "pi1").map
      PiEntry.lastSeen = some 7 ∧
    (findClient (apiAlexaHandler
        [("default", { url := "http://pi", name := "Pi", lastSeen := 0 })]
        "" "http://d" 42 (.success 200)).registry "default").map
      PiEntry.lastSeen = some 42 := by
  constructor
  · exact (lastSeen_update_rules [] "pi1" "http://a" "" "" "http://d" 7
      { url := "x", name := "x", lastSeen := 0 }).1 (by decide) (by decide)
  · exact ((lastSeen_update_rules
      [("default", { url := "http://pi", name := "Pi", lastSeen := 0 })]
      "c" "u" "n" "" "http://d" 42
      { url := "http://pi", name := "Pi", lastSeen := 0 }).2.2.2.1 200
      (by decide))

/-- The registry invariant: every entry has a non-empty clientId and a
non-empty address. -/
def GoodRegistry (r : Registry) : Prop :=
  ∀ p ∈ r, p.1 ≠ "" ∧ p.2.url ≠ ""

/-- Overwriting with a good key and a good url preserves the invariant. -/
theorem good_setClient {r : Registry} {k : String} {e : PiEntry}
    (hg : GoodRegistry r) (hk : k ≠ "") (he : e.url ≠ "") :
    GoodRegistry (setClient r k e) := by
  induction r with
  | nil =>
      intro p hp
      simp [setClient] at hp
      simp [hp, hk, he]
  | cons q rest ih =>
      obtain ⟨k0, e0⟩ := q
      have hg0 := hg (k0, e0) (by simp)
      have hgrest : GoodRegistry rest := fun p hp =>
        hg p (List.mem_cons_of_mem _ hp)
      by_cases hk0 : k0 = k
      · intro p hp
        simp [setClient, hk0] at hp
        rcases hp with hp | hp
        · simp [hp, hk, he]
        · exact hgrest p hp
      · intro p hp
        simp only [setClient, if_neg hk0, List.mem_cons] at hp
        rcases hp with hp | hp
        · simp [hp]
          exact ⟨hg0.1, hg0.2⟩
        · exact ih hgrest p hp

/-- Filtering preserves the invariant. -/
theorem good_filter {r : Registry} (hg : GoodRegistry r)
    (p : String × PiEntry → Bool) : GoodRegistry (r.filter p) :=
  fun q hq => hg q (List.mem_of_mem_filter hq)

/-- C9: if every registry entry has a non-empty clientId and address,
the same holds after any register call, any heartbeat, any /api/alexa
forward, any /alexa request and any eviction pass. -/
theorem registry_invariant_preserved (r : Registry) (hg : GoodRegistry r) :
    (∀ c u n now, GoodRegistry (register r c u n now).1) ∧
    (∀ c u n now, GoodRegistry (ping r c u n now).1) ∧
    (∀ hdr d now oc, GoodRegistry (apiAlexaHandler r hdr d now oc).registry) ∧
    (∀ rt nm sl d now fwd,
      GoodRegistry (alexaHandler rt nm sl r d now fwd).registry) ∧
    (∀ now th, GoodRegistry (evictStale r now th)) := by
  refine ⟨?_, ?_, ?_, ?_, ?_⟩
  · intro c u n now
    by_cases hbad : c = "" ∨ u = ""
    · simp [register, hbad]
      exact hg
    · push_neg at hbad
      simp [register, hbad.1, hbad.2]
      exact good_setClient hg hbad.1 hbad.2
  · intro c u n now
    by_cases hc : c = ""
    · simp [ping, hc]
      exact hg
    · rcases hfind : findClient r c with _ | e
      · by_cases hu : u = ""
        · simp [ping, hc, hfind, hu]
          exact hg
        · simp [ping, hc, hfind, hu]
          exact good_setClient hg hc hu
      · have hmem := findClient_mem hfind
        have hurl : e.url ≠ "" := (hg (c, e) hmem).2
        simp only [ping, if_neg hc, hfind]
        by_cases hu : u = ""
        · exact good_setClient hg hc (by simp [hu, hurl])
        · exact good_setClient hg hc (by simp [hu])
  · intro hdr d now oc
    cases oc with
    | failure msg =>
        simp [apiAlexaHandler]
        exact hg
    | success st =>
        simp only [apiAlexaHandler]
        rcases hfind : findClient r (if hdr = "" then "default" else hdr)
          with _ | e
        · simp [hfind]
          exact hg
        · have hmem := findClient_mem hfind
          have hgood := hg _ hmem
          simp [hfind]
          exact good_setClient hg hgood.1 hgood.2
  · intro rt nm sl d now fwd
    rw [alexaHandler_registry]
    exact hg
  · intro now th
    exact good_filter hg _

/-- Witness for C9 at a concrete input. -/
theorem registry_invariant_preserved_witness :
    GoodRegistry (register
      [("pi1", { url := "http://a", name := "A", lastSeen := 0 })]
      "pi2" "http://b" "" 7).1 :=
  (registry_invariant_preserved
    [("pi1", { url := "http://a", name := "A", lastSeen := 0 })]
    (by simp [GoodRegistry])).1 "pi2" "http://b" "" 7

/-- C10: on a forwardable camera intent, the assistant endpoint resolves
its forward target with the fixed client id "default": the url of the
entry registered under "default" when present, the configured default
otherwise; two registries agreeing on the "default" key give identical
forwards, so no other entry is ever consulted. -/
theorem assistant_resolves_default (intentName : String) (slots : Slots)
    (r r2 : Registry) (d : String) (now : Int) (fwd : Bool)
    (hn : isForwardableIntent intentName = true) :
    (∀ e, findClient r "default" = some e →
      (alexaHandler "IntentRequest" intentName slots r d now fwd).forwarded =
        [(e.url, extractIntentData intentName slots)]) ∧
    (findClient r "default" = none →
      (alexaHandler "IntentRequest" intentName slots r d now fwd).forwarded =
        [(d, extractIntentData intentName slots)]) ∧
    (findClient r "default" = findClient r2 "default" →
      (alexaHandler "IntentRequest" intentName slots r d now fwd).forwarded =
        (alexaHandler "IntentRequest" intentName slots r2 d now fwd).forwarded) := by
  rw [alexaHandler_forwardable _ _ _ _ _ _ hn,
    alexaHandler_forwardable _ _ _ _ _ _ hn]
  refine ⟨?_, ?_, ?_⟩
  · intro e he
    simp [getRaspberryPiUrl, he]
  · intro he
    simp [getRaspberryPiUrl, he]
  · intro hagree
    simp [getRaspberryPiUrl, hagree]

/-- Witness for C10: a non-default entry is ignored and the default entry
is used when present. -/
theorem assistant_resolves_default_witness :
    (alexaHandler "IntentRequest" "OpenCameraIntent" noSlots
        [("other", { url := "http://other", name := "O", lastSeen := 0 })]
        "http://d" 0 true).forwarded =
      [("http://d", extractIntentData "OpenCameraIntent" noSlots)] ∧
    (alexaHandler "IntentRequest" "OpenCameraIntent" noSlots
        [("default", { url := "http://pi", name := "P", lastSeen := 0 })]
        "http://d" 0 true).forwarded =
      [("http://pi", extractIntentData "OpenCameraIntent" noSlots)] := by
  constructor
  · exact (assistant_resolves_default "OpenCameraIntent" noSlots
      [("other", { url := "http://other", name := "O", lastSeen := 0 })]
      [] "http://d" 0 true (by decide)).2.1 (by decide)
  · exact (assistant_resolves_default "OpenCameraIntent" noSlots
      [("default", { url := "http://pi", name := "P", lastSeen := 0 })]
      [] "http://d" 0 true (by decide)).1
      { url := "http://pi", name := "P", lastSeen := 0 } (by decide)

end AlexaSurveillance
